import Mathlib

/-!
Verification of the dbcrossbar data-movement core against its specification.

The development shallowly embeds three source files:
  * `drivers/postgres/write_local_data.rs` — table preparation, `COPY`
    statement generation, and the stream-of-streams write loop;
  * `drivers/bigquery/mod.rs` — the BigQuery locator (address parse/render
    and the `supports_write_remote_data` capability query);
  * `drivers/bigquery/local_data.rs` — staged extraction through a
    temporary `gs://` location.

Stateful, effectful code is embedded as pure functions that return an
explicit event trace together with an `Except` result; the environment
(database contents, connection outcome, per-stream load outcomes) is
passed in explicitly.  Collaborator code that lives outside the three
embedded files (`PgCreateTable::from_name_and_columns`, the BigQuery
`TableName` module, `find_gs_temp_dir`, the `Query` and
`TemporaryStorage` types) is modelled from the specification, as marked
on each definition.
-/

namespace DbCrossbar

/-- Errors are carried as plain message strings, mirroring `failure::Error`
messages produced with `format_err!`. -/
abbrev Err := String

/-- The `IfExists` destination-table lifecycle policy (§3 of the spec). -/
inductive IfExists where
  | Overwrite
  | Append
  | Error
  deriving DecidableEq, Repr

/-- Modelled from the spec: the backend-neutral column data type of the
`Table` schema (§3).  `array` is the array type rejected by the Postgres
driver; `other` stands for a neutral type with no Postgres equivalent,
giving the schema translator its failure case (§7 error kind (c)). -/
inductive DataType where
  | int
  | text
  | array (elem : DataType)
  | other (name : String)
  deriving DecidableEq, Repr

/-- A backend-neutral schema column: name, neutral data type, nullability. -/
structure Column where
  name : String
  data_type : DataType
  is_nullable : Bool
  deriving DecidableEq, Repr

/-- The backend-neutral `Table` schema: name and ordered column sequence. -/
structure Table where
  name : String
  columns : List Column
  deriving DecidableEq, Repr

/-- A PostgreSQL column type, as far as `write_local_data.rs` inspects it:
`copy_from_sql` only distinguishes `PgDataType::Array { .. }` from
everything else. -/
inductive PgDataType where
  | scalar (name : String)
  | array (elem : String)
  deriving DecidableEq, Repr

/-- A column of a `PgCreateTable`. -/
structure PgColumn where
  name : String
  data_type : PgDataType
  is_nullable : Bool
  deriving DecidableEq, Repr

/-- The Postgres "prepared create" representation: table name, columns,
and the `IF NOT EXISTS` flag edited by `prepare_table`. -/
structure PgCreateTable where
  name : String
  columns : List PgColumn
  if_not_exists : Bool
  deriving DecidableEq, Repr

/-- Rust's `{:?}` rendering of a single character inside a string. -/
def rustDebugChar (c : Char) : String :=
  if c = '\\' then "\\\\"
  else if c = '\"' then "\\\""
  else if c = '\n' then "\\n"
  else if c = '\t' then "\\t"
  else String.singleton c

/-- Rust's `{:?}` rendering of a string: double quotes around the
escaped characters. -/
def rustDebugString (s : String) : String :=
  "\"" ++ String.join (s.data.map rustDebugChar) ++ "\""

/-- Modelled from the spec: translation of one backend-neutral data type
to its Postgres type (§4.3 schema translation).  Array types translate to
`PgDataType.array` (they are rejected later, by `copy_from_sql`, not
here); a neutral type unknown to the destination is a schema error. -/
def pgDataTypeOf : DataType → Except Err PgDataType
  | DataType.int => Except.ok (PgDataType.scalar "int")
  | DataType.text => Except.ok (PgDataType.scalar "text")
  | DataType.array DataType.int => Except.ok (PgDataType.array "int")
  | DataType.array DataType.text => Except.ok (PgDataType.array "text")
  | DataType.array _ => Except.ok (PgDataType.array "nested")
  | DataType.other n => Except.error ("unsupported neutral data type " ++ rustDebugString n)

/-- Modelled from the spec: per-column schema translation, preserving the
column's name and nullability (§3 invariant: no stage may mutate column
order or types). -/
def pgColumnOf (c : Column) : Except Err PgColumn :=
  match pgDataTypeOf c.data_type with
  | Except.error e => Except.error e
  | Except.ok ty => Except.ok { name := c.name, data_type := ty, is_nullable := c.is_nullable }

/-- Modelled from the spec: translation of a whole column list, keeping
schema order. -/
def pgColumnsOf : List Column → Except Err (List PgColumn)
  | [] => Except.ok []
  | c :: rest =>
    match pgColumnOf c with
    | Except.error e => Except.error e
    | Except.ok pc =>
      match pgColumnsOf rest with
      | Except.error e => Except.error e
      | Except.ok pcs => Except.ok (pc :: pcs)

/-- Modelled from the spec: `PgCreateTable::from_name_and_columns` (the
schema translator of §4.3; its body lives in `postgres_shared`, outside
the embedded files).  Builds the Postgres create representation for
`name` from the neutral columns, in order. -/
def from_name_and_columns (name : String) (columns : List Column) :
    Except Err PgCreateTable :=
  match pgColumnsOf columns with
  | Except.error e => Except.error e
  | Except.ok pcs => Except.ok { name := name, columns := pcs, if_not_exists := false }

/-- A SQL statement issued by `prepare_table`, kept as an AST rather than
text: `DROP TABLE IF EXISTS name` or the rendered `CREATE TABLE`. -/
inductive SqlStmt where
  | dropTableIfExists (name : String)
  | createTable (t : PgCreateTable)
  deriving DecidableEq, Repr

/-- The destination database state the lifecycle statements run against:
the set of existing table names. -/
abbrev Db := List String

/-- Execution of one lifecycle statement against the destination
database.  `DROP TABLE IF EXISTS` always succeeds; `CREATE TABLE`
without `IF NOT EXISTS` fails when the table already exists, and with
the guard it leaves an existing table untouched. -/
def execStmt (db : Db) : SqlStmt → Except Err Db
  | SqlStmt.dropTableIfExists n => Except.ok (db.filter (fun m => m ≠ n))
  | SqlStmt.createTable t =>
    if t.name ∈ db then
      if t.if_not_exists then Except.ok db
      else Except.error ("relation " ++ rustDebugString t.name ++ " already exists")
    else Except.ok (t.name :: db)

/-- Embedding of `prepare_table` (write_local_data.rs lines 43–68): run
`DROP TABLE` and/or `CREATE TABLE` as needed.  Returns the statements
issued, in order, together with the database outcome.  As in the source,
the function edits `if_not_exists` on its owned copy of the create
representation before executing it. -/
def prepare_table (db : Db) (pg_create_table : PgCreateTable) (if_exists : IfExists) :
    List SqlStmt × Except Err Db :=
  match if_exists with
  | IfExists.Overwrite =>
    let s1 := SqlStmt.dropTableIfExists pg_create_table.name
    match execStmt db s1 with
    | Except.error e => ([s1], Except.error e)
    | Except.ok db1 =>
      let s2 := SqlStmt.createTable { pg_create_table with if_not_exists := false }
      ([s1, s2], execStmt db1 s2)
  | IfExists.Append =>
    let s := SqlStmt.createTable { pg_create_table with if_not_exists := true }
    ([s], execStmt db s)
  | IfExists.Error =>
    let s := SqlStmt.createTable { pg_create_table with if_not_exists := false }
    ([s], execStmt db s)

/-- One line of the column list of the `COPY` statement: four spaces,
the debug-quoted column name, a comma unless last, and a newline —
mirroring the `writeln!` calls of `copy_from_sql`. -/
def copyColLine (name : String) (isLast : Bool) : String :=
  "    " ++ rustDebugString name ++ (if isLast then "" else ",") ++ "\n"

/-- The column-list portion of `copy_from_sql`: the loop over
`pg_create_table.columns`, failing on the first array column. -/
def copyColLines : List PgColumn → Except Err String
  | [] => Except.ok ""
  | c :: rest =>
    match c.data_type with
    | PgDataType.array _ =>
      Except.error ("cannot yet import array column " ++ rustDebugString c.name)
    | PgDataType.scalar _ =>
      match copyColLines rest with
      | Except.error e => Except.error e
      | Except.ok tail => Except.ok (copyColLine c.name rest.isEmpty ++ tail)

/-- Embedding of `copy_from_sql` (write_local_data.rs lines 75–96):
generate the `COPY ... FROM STDIN` SQL, rejecting array columns. -/
def copy_from_sql (pg_create_table : PgCreateTable) (data_format : String) :
    Except Err String :=
  match copyColLines pg_create_table.columns with
  | Except.error e => Except.error e
  | Except.ok cols =>
    Except.ok ("COPY " ++ rustDebugString pg_create_table.name ++ " (\n" ++ cols
      ++ ") FROM STDIN WITH " ++ data_format ++ "\n")

/-- The `COPY` statement, re-rendered directly from a table name and an
explicit, ordered column-name list.  Used to state that the generated
statement's column list is exactly the schema's columns in order. -/
def renderCopyLines : List String → String
  | [] => ""
  | [n] => copyColLine n true
  | n :: rest => copyColLine n false ++ renderCopyLines rest

/-- Full re-rendering of the `COPY` statement from an explicit column
list, for comparison with `copy_from_sql`. -/
def renderCopySql (table : String) (cols : List String) (data_format : String) : String :=
  "COPY " ++ rustDebugString table ++ " (\n" ++ renderCopyLines cols
    ++ ") FROM STDIN WITH " ++ data_format ++ "\n"

/-- A `CsvStream` (RowStream, §3): a named partition of the dataset; the
byte chunks are kept abstract as strings, since the embedded loop never
inspects them itself. -/
structure CsvStream where
  name : String
  data : List String
  deriving DecidableEq, Repr

/-- An observable event of the Postgres write path.  `connect` is a call
to `connect(&url)`; `exec` is a lifecycle statement run by
`prepare_table`; `pull` is one `await!(data.into_future())` on the
stream of streams; `copy` is the transform-and-`COPY` of one stream,
recording the `COPY` SQL it was handed. -/
inductive Ev where
  | connect
  | exec (s : SqlStmt)
  | pull
  | copy (stream : String) (sql : String)
  deriving DecidableEq, Repr

/-- The environment the Postgres write path runs against: the outcome of
`connect(&url)`, the destination database contents, and the combined
outcome of `spawn_sync_transform` + `copy_from_async` for one stream
(those bodies live in `tokio_glue`/`csv_to_binary`, outside the embedded
files, so they are abstracted as an oracle). -/
structure PgEnv where
  connectResult : Except Err Unit
  db : Db
  load : CsvStream → Except Err Unit

/-- Decidable equality for `Except` results, so that concrete runs can
be checked by `decide`. -/
instance exceptDecEq {ε α : Type} [DecidableEq ε] [DecidableEq α] :
    DecidableEq (Except ε α) := fun a b =>
  match a, b with
  | Except.error e, Except.error e' =>
    if h : e = e' then Decidable.isTrue (by rw [h])
    else Decidable.isFalse (by intro hc; cases hc; exact h rfl)
  | Except.error _, Except.ok _ => Decidable.isFalse (by intro hc; cases hc)
  | Except.ok _, Except.error _ => Decidable.isFalse (by intro hc; cases hc)
  | Except.ok v, Except.ok v' =>
    if h : v = v' then Decidable.isTrue (by rw [h])
    else Decidable.isFalse (by intro hc; cases hc; exact h rfl)

/-- The run of one returned completion handle: its event trace, the
names of the streams whose loads committed, in load order, and its
result. -/
structure LoopRun where
  trace : List Ev
  committed : List String
  result : Except Err Unit
  deriving DecidableEq, Repr

/-- Embedding of the `async move { loop { ... } }` block of
`write_local_data_helper` (lines 165–202): pull the next `CsvStream`;
an error from the stream of streams is returned at once; `None` ends
the loop; otherwise the stream is transformed and `COPY`-ed (with the
shared `copy_sql`), a failure there being returned at once.  The input
stream of streams is a list whose `.error` element is the point where
`data.into_future()` yields an error. -/
def runLoop (load : CsvStream → Except Err Unit) (copySql : String) :
    List (Except Err CsvStream) → LoopRun
  | [] => { trace := [Ev.pull], committed := [], result := Except.ok () }
  | Except.error e :: _ => { trace := [Ev.pull], committed := [], result := Except.error e }
  | Except.ok cs :: rest =>
    match load cs with
    | Except.error e =>
      { trace := [Ev.pull, Ev.copy cs.name copySql], committed := [],
        result := Except.error e }
    | Except.ok _ =>
      let r := runLoop load copySql rest
      { trace := Ev.pull :: Ev.copy cs.name copySql :: r.trace,
        committed := cs.name :: r.committed,
        result := r.result }

/-- The run of `write_local_data_helper` up to its return: the trace of
the preparation phase and either an error or the list of completion
handles it returns, each represented by its own run. -/
structure WldRun where
  trace : List Ev
  result : Except Err (List LoopRun)

/-- Embedding of `write_local_data_helper` (lines 133–204): translate
the schema to a `PgCreateTable`; connect; prepare the table under the
`IfExists` policy; generate the `COPY ... FROM` SQL once; then return —
via `box_stream_once` — the stream of completion handles holding the
single loop future. -/
def write_local_data_helper (env : PgEnv) (table_name : String) (schema : Table)
    (data : List (Except Err CsvStream)) (if_exists : IfExists) : WldRun :=
  match from_name_and_columns table_name schema.columns with
  | Except.error e => { trace := [], result := Except.error e }
  | Except.ok pg_create_table =>
    match env.connectResult with
    | Except.error e => { trace := [Ev.connect], result := Except.error e }
    | Except.ok _ =>
      let prep := prepare_table env.db pg_create_table if_exists
      let trace := Ev.connect :: prep.1.map Ev.exec
      match prep.2 with
      | Except.error e => { trace := trace, result := Except.error e }
      | Except.ok _ =>
        match copy_from_sql pg_create_table "BINARY" with
        | Except.error e => { trace := trace, result := Except.error e }
        | Except.ok copy_sql =>
          { trace := trace,
            result := Except.ok [runLoop env.load copy_sql data] }

/-- URL scheme for `BigQueryLocator` (`BIGQUERY_SCHEME` in the source). -/
def BIGQUERY_SCHEME : String := "bigquery:"

/-- The first `n` characters of `s`, as a string. -/
def strTake (s : String) (n : Nat) : String := String.mk (s.data.take n)

/-- `s` without its first `n` characters (the source's byte slice
`s[BIGQUERY_SCHEME.len()..]`, character-exact for ASCII schemes). -/
def strDrop (s : String) (n : Nat) : String := String.mk (s.data.drop n)

/-- Modelled from the spec: the BigQuery `TableName` (its module is not
among the embedded files).  Per §4.1 it has a stable textual form it
parses itself from and renders itself back to, losslessly; the text
must name a concrete resource, so the empty string is rejected. -/
structure TableName where
  text : String
  deriving DecidableEq, Repr

/-- Modelled from the spec: parsing a `TableName` from its textual form
(round-trip identity with `TableName.render`). -/
def TableName.parse (s : String) : Except Err TableName :=
  if s = "" then Except.error "expected a BigQuery table name"
  else Except.ok { text := s }

/-- Modelled from the spec: rendering a `TableName` back to its textual
form. -/
def TableName.render (t : TableName) : String := t.text

/-- A locator for a BigQuery table (bigquery/mod.rs lines 17–22). -/
structure BigQueryLocator where
  table_name : TableName
  deriving DecidableEq, Repr

/-- Embedding of `impl fmt::Display for BigQueryLocator` (lines 24–32):
`"bigquery:"` followed by the table name. -/
def BigQueryLocator.render (l : BigQueryLocator) : String :=
  "bigquery:" ++ l.table_name.render

/-- Embedding of `impl FromStr for BigQueryLocator` (lines 34–44):
require the `bigquery:` scheme, then parse the rest as a table name.
The source tests `s.starts_with(BIGQUERY_SCHEME)`; comparing the first
`BIGQUERY_SCHEME.length` characters is the same test. -/
def BigQueryLocator.from_str (s : String) : Except Err BigQueryLocator :=
  if strTake s BIGQUERY_SCHEME.length = BIGQUERY_SCHEME then
    match TableName.parse (strDrop s BIGQUERY_SCHEME.length) with
    | Except.error e => Except.error e
    | Except.ok t => Except.ok { table_name := t }
  else Except.error ("expected a bigquery: locator, found " ++ s)

/-- A locator for a `gs://` bucket path (the `GsLocator` of the `gs`
driver; only its identity as a concrete type matters here). -/
structure GsLocator where
  url : String
  deriving DecidableEq, Repr

/-- A locator for a Postgres table, standing in for the remaining
backend kinds of the closed union. -/
structure PostgresLocator where
  url : String
  table : String
  deriving DecidableEq, Repr

/-- The closed tagged union over backend locator kinds (`BoxLocator`;
§9 design note models trait-object dispatch as a closed variant). -/
inductive BoxLocator where
  | bigquery (l : BigQueryLocator)
  | gs (l : GsLocator)
  | postgres (l : PostgresLocator)
  deriving DecidableEq, Repr

/-- The concrete kind (Rust type) of a locator, with all instance state
erased — what `source.as_any().is::<T>()` inspects. -/
inductive LocatorKind where
  | bigquery
  | gs
  | postgres
  deriving DecidableEq, Repr

/-- The kind of a `BoxLocator`. -/
def BoxLocator.kind : BoxLocator → LocatorKind
  | BoxLocator.bigquery _ => LocatorKind.bigquery
  | BoxLocator.gs _ => LocatorKind.gs
  | BoxLocator.postgres _ => LocatorKind.postgres

/-- Embedding of `BigQueryLocator::supports_write_remote_data`
(bigquery/mod.rs lines 51–55): `source.as_any().is::<GsLocator>()` —
true exactly when the source locator is a `GsLocator`. -/
def BigQueryLocator.supports_write_remote_data
    (_self : BigQueryLocator) (source : BoxLocator) : Bool :=
  match source with
  | BoxLocator.gs _ => true
  | _ => false

/-- Modelled from the spec: the `TemporaryStorage` configuration (§3,
§6) — a single optional writable location descriptor. -/
structure TemporaryStorage where
  location : Option String
  deriving DecidableEq, Repr

/-- Modelled from the spec: `find_gs_temp_dir` (defined outside the
embedded files) resolves a `gs://` temporary directory from the
configuration and must fail clearly when none is configured or the
configured location is not a `gs://` prefix. -/
def find_gs_temp_dir (temporary_storage : TemporaryStorage) : Except Err String :=
  match temporary_storage.location with
  | none => Except.error "no temporary storage location configured"
  | some loc =>
    if strTake loc 5 = "gs://" then Except.ok loc
    else Except.error ("need a gs:// temporary storage location, found " ++ loc)

/-- Modelled from the spec: a source `Query`; `Query::default()` is the
unrestricted query. -/
structure Query where
  filter : Option String
  deriving DecidableEq, Repr

/-- The default, unrestricted query. -/
def Query.default : Query := { filter := none }

/-- An observable backend call of BigQuery's `local_data_helper`:
the staging write into the temporary location (recording destination,
forwarded query and `IfExists` policy) and the read-back out of it
(recording the query used). -/
inductive BqEv where
  | writeRemote (dest : String) (q : Query) (if_exists : IfExists)
  | readBack (src : String) (q : Query)
  deriving DecidableEq, Repr

/-- The environment of `local_data_helper`: outcomes of the two
collaborator calls on the temporary `gs://` locator. -/
structure BqEnv where
  writeRemoteResult : Except Err Unit
  localDataResult : Except Err (Option (List CsvStream))

/-- Embedding of BigQuery's `local_data_helper` (local_data.rs lines
8–46): resolve a `gs://` temporary directory, extract from BigQuery
into it with `IfExists::Overwrite`, then read it back with
`Query::default()`. -/
def local_data_helper (env : BqEnv) (query : Query)
    (temporary_storage : TemporaryStorage) :
    List BqEv × Except Err (Option (List CsvStream)) :=
  match find_gs_temp_dir temporary_storage with
  | Except.error e => ([], Except.error e)
  | Except.ok gs_temp =>
    match env.writeRemoteResult with
    | Except.error e => ([BqEv.writeRemote gs_temp query IfExists.Overwrite], Except.error e)
    | Except.ok _ =>
      ([BqEv.writeRemote gs_temp query IfExists.Overwrite,
        BqEv.readBack gs_temp Query.default],
       env.localDataResult)

/-- Names of the successfully yielded streams of a stream-of-streams
value, in source order. -/
def okStreamNames : List (Except Err CsvStream) → List String
  | [] => []
  | Except.error _ :: rest => okStreamNames rest
  | Except.ok cs :: rest => cs.name :: okStreamNames rest

/-- The canonical event block for a sequence of loaded streams: one
`pull` followed by one `copy` per stream, strictly alternating. -/
def blockTrace (sql : String) (names : List String) : List Ev :=
  (names.map fun n => [Ev.pull, Ev.copy n sql]).flatten

/-- Whether an event is a `pull` of the stream of streams. -/
def isPull : Ev → Bool
  | Ev.pull => true
  | _ => false

/-- Whether a trace is free of stream consumption and row-data events:
no `pull`, no `copy`. -/
def noStreamEvents (tr : List Ev) : Bool :=
  tr.all fun ev =>
    match ev with
    | Ev.pull => false
    | Ev.copy _ _ => false
    | _ => true

/-- The first array-typed column of a neutral column list, if any. -/
def firstArrayColumn : List Column → Option Column
  | [] => none
  | c :: rest =>
    match c.data_type with
    | DataType.array _ => some c
    | _ => firstArrayColumn rest

/-- The first array-typed column of a Postgres column list, if any. -/
def firstArrayPgColumn : List PgColumn → Option PgColumn
  | [] => none
  | c :: rest =>
    match c.data_type with
    | PgDataType.array _ => some c
    | _ => firstArrayPgColumn rest

/-- A concrete environment where everything succeeds, used to exercise
the theorems on closed inputs. -/
def envOk : PgEnv :=
  { connectResult := Except.ok (), db := [], load := fun _ => Except.ok () }

/-- A concrete environment whose destination database already holds the
table `t`. -/
def envTblExists : PgEnv :=
  { connectResult := Except.ok (), db := ["t"], load := fun _ => Except.ok () }

/-- A one-column integer schema. -/
def schemaInt : Table :=
  { name := "t",
    columns := [{ name := "a", data_type := DataType.int, is_nullable := false }] }

/-- A schema whose only column is array-typed. -/
def schemaArr : Table :=
  { name := "t",
    columns := [{ name := "a", data_type := DataType.array DataType.int,
                  is_nullable := false }] }

/-- A concrete first stream. -/
def stream1 : CsvStream := { name := "s1", data := ["a\n1\n"] }

/-- A concrete second stream. -/
def stream2 : CsvStream := { name := "s2", data := ["a\n2\n"] }

/-- The `COPY` statement generated for `schemaInt`'s table. -/
def copySqlT : String := "COPY \"t\" (\n    \"a\"\n) FROM STDIN WITH BINARY\n"

/-! ## Shared lemmas -/

lemma scheme_eq : BIGQUERY_SCHEME = "bigquery:" := rfl

lemma strTake_append_strDrop (s : String) (n : Nat) :
    strTake s n ++ strDrop s n = s := by
  apply String.ext
  rw [String.data_append]
  exact List.take_append_drop n s.data

lemma strTake_of_append (p t : String) : strTake (p ++ t) p.length = p := by
  apply String.ext
  show ((p ++ t).data.take p.length) = p.data
  rw [String.data_append]
  exact List.take_left p.data t.data

lemma strDrop_of_append (p t : String) : strDrop (p ++ t) p.length = t := by
  apply String.ext
  show ((p ++ t).data.drop p.length) = t.data
  rw [String.data_append]
  exact List.drop_left p.data t.data

/-! ## C4: table lifecycle under the IfExists policies -/

/-- C4: `prepare_table` issues exactly one lifecycle behaviour per
policy.  `Overwrite` unconditionally issues `DROP TABLE IF EXISTS`
followed by a `CREATE TABLE` without the `IF NOT EXISTS` guard;
`Append` issues only a guarded create and no drop; `Error` issues only
an unguarded create and no drop, so a pre-existing table makes the
destination raise an already-exists error. -/
theorem prepare_table_lifecycle (db : Db) (pg : PgCreateTable) :
    (prepare_table db pg IfExists.Overwrite).1 =
      [SqlStmt.dropTableIfExists pg.name,
       SqlStmt.createTable { pg with if_not_exists := false }] ∧
    (prepare_table db pg IfExists.Append).1 =
      [SqlStmt.createTable { pg with if_not_exists := true }] ∧
    (prepare_table db pg IfExists.Error).1 =
      [SqlStmt.createTable { pg with if_not_exists := false }] ∧
    (pg.name ∈ db →
      (prepare_table db pg IfExists.Error).2 =
        Except.error ("relation " ++ rustDebugString pg.name ++ " already exists")) := by
  refine ⟨?_, rfl, rfl, ?_⟩
  · simp only [prepare_table, execStmt]
  · intro h
    simp only [prepare_table, execStmt]
    rw [if_pos h]
    rfl

/-- Witness for C4 at a concrete database and table. -/
theorem prepare_table_lifecycle_witness :
    "t" ∈ (["t"] : Db) ∧
    (prepare_table ["t"]
        { name := "t", columns := [], if_not_exists := false } IfExists.Error).2 =
      Except.error ("relation " ++ rustDebugString "t" ++ " already exists") :=
  ⟨by decide,
   (prepare_table_lifecycle ["t"]
      { name := "t", columns := [], if_not_exists := false }).2.2.2 (by decide)⟩

/-! ## C6: BigQuery locator address round trip -/

/-- C6: rendering the locator parsed from a valid `bigquery:` string
gives the string back, and parsing the rendered form of any locator
whose table name is non-empty (the invariant every parsed locator
satisfies) gives the locator back. -/
theorem bigquery_locator_round_trip :
    (∀ (s : String) (x : BigQueryLocator),
       BigQueryLocator.from_str s = Except.ok x → x.render = s) ∧
    (∀ x : BigQueryLocator, x.table_name.text ≠ "" →
       BigQueryLocator.from_str x.render = Except.ok x) := by
  constructor
  · intro s x h
    unfold BigQueryLocator.from_str at h
    by_cases hp : strTake s BIGQUERY_SCHEME.length = BIGQUERY_SCHEME
    · rw [if_pos hp] at h
      unfold TableName.parse at h
      by_cases he : strDrop s BIGQUERY_SCHEME.length = ""
      · rw [if_pos he] at h
        cases h
      · rw [if_neg he] at h
        cases h
        show "bigquery:" ++ strDrop s BIGQUERY_SCHEME.length = s
        rw [← scheme_eq]
        calc BIGQUERY_SCHEME ++ strDrop s BIGQUERY_SCHEME.length
            = strTake s BIGQUERY_SCHEME.length ++ strDrop s BIGQUERY_SCHEME.length := by
              rw [hp]
          _ = s := strTake_append_strDrop s _
    · rw [if_neg hp] at h
      cases h
  · intro x h
    unfold BigQueryLocator.from_str
    rw [scheme_eq]
    have hp : strTake x.render ("bigquery:" : String).length = "bigquery:" := by
      unfold BigQueryLocator.render
      exact strTake_of_append "bigquery:" x.table_name.render
    rw [if_pos hp]
    have hd : strDrop x.render ("bigquery:" : String).length = x.table_name.text := by
      unfold BigQueryLocator.render
      exact strDrop_of_append "bigquery:" x.table_name.render
    rw [hd]
    unfold TableName.parse
    rw [if_neg h]

/-- Witness for C6 at a concrete locator string. -/
theorem bigquery_locator_round_trip_witness :
    ({ table_name := { text := "p:d.t" } } : BigQueryLocator).render = "bigquery:p:d.t" ∧
    BigQueryLocator.from_str "bigquery:p:d.t" =
      Except.ok { table_name := { text := "p:d.t" } } :=
  ⟨bigquery_locator_round_trip.1 "bigquery:p:d.t" { table_name := { text := "p:d.t" } }
     (by decide),
   bigquery_locator_round_trip.2 { table_name := { text := "p:d.t" } } (by decide)⟩

/-! ## C7: capability query decided purely from the source's kind -/

/-- C7: `supports_write_remote_data` returns `true` exactly when the
source locator is a `GsLocator`, and its result depends only on the
concrete kinds involved — any two sources of the same kind (and any
two `BigQueryLocator` receivers) give the identical result, with no
I/O performed. -/
theorem bigquery_supports_write_remote_kind :
    (∀ (self : BigQueryLocator) (source : BoxLocator),
       self.supports_write_remote_data source = true ↔
         ∃ g : GsLocator, source = BoxLocator.gs g) ∧
    (∀ (self self' : BigQueryLocator) (src src' : BoxLocator),
       src.kind = src'.kind →
       self.supports_write_remote_data src = self'.supports_write_remote_data src') := by
  constructor
  · intro self source
    cases source with
    | bigquery l => simp [BigQueryLocator.supports_write_remote_data]
    | gs l => simp [BigQueryLocator.supports_write_remote_data]
    | postgres l => simp [BigQueryLocator.supports_write_remote_data]
  · intro self self' src src' hk
    cases src <;> cases src' <;> simp_all [BoxLocator.kind,
      BigQueryLocator.supports_write_remote_data]

/-- Witness for C7: two distinct `gs://` instances give the same
positive answer for two distinct receivers. -/
theorem bigquery_supports_write_remote_kind_witness :
    ({ table_name := { text := "p:d.t" } } : BigQueryLocator).supports_write_remote_data
        (BoxLocator.gs { url := "gs://bucket/a" }) =
      ({ table_name := { text := "q:e.u" } } : BigQueryLocator).supports_write_remote_data
        (BoxLocator.gs { url := "gs://bucket/b" }) :=
  bigquery_supports_write_remote_kind.2
    { table_name := { text := "p:d.t" } } { table_name := { text := "q:e.u" } }
    (BoxLocator.gs { url := "gs://bucket/a" }) (BoxLocator.gs { url := "gs://bucket/b" })
    (by decide)

/-! ## C10: staged extraction through the gs:// temporary location -/

/-- C10: BigQuery's `local_data_helper` fails before any backend call
when no `gs://` temporary directory resolves; otherwise its first
backend call is the staging write into the resolved temporary
location, always with `IfExists.Overwrite` and the forwarded query,
and any read-back out of temporary storage uses the default
(unrestricted) query. -/
theorem bigquery_local_data_staging (env : BqEnv) (query : Query)
    (ts : TemporaryStorage) :
    (∀ e, find_gs_temp_dir ts = Except.error e →
       local_data_helper env query ts = ([], Except.error e)) ∧
    (∀ gs, find_gs_temp_dir ts = Except.ok gs →
       (local_data_helper env query ts).1.head? =
         some (BqEv.writeRemote gs query IfExists.Overwrite) ∧
       ∀ ev ∈ (local_data_helper env query ts).1,
         (∀ d q i, ev = BqEv.writeRemote d q i →
            d = gs ∧ q = query ∧ i = IfExists.Overwrite) ∧
         (∀ s q, ev = BqEv.readBack s q → s = gs ∧ q = Query.default)) := by
  constructor
  · intro e he
    unfold local_data_helper
    rw [he]
  · intro gs hgs
    unfold local_data_helper
    rw [hgs]
    cases hw : env.writeRemoteResult with
    | error e' =>
      refine ⟨rfl, ?_⟩
      intro ev hev
      simp only [List.mem_singleton] at hev
      subst hev
      constructor
      · intro d q i hi
        cases hi
        exact ⟨rfl, rfl, rfl⟩
      · intro s q hq
        cases hq
    | ok u =>
      refine ⟨rfl, ?_⟩
      intro ev hev
      simp only [List.mem_cons, List.mem_singleton] at hev
      rcases hev with hev | hev | hfalse
      · subst hev
        constructor
        · intro d q i hi
          cases hi
          exact ⟨rfl, rfl, rfl⟩
        · intro s q hq
          cases hq
      · subst hev
        constructor
        · intro d q i hi
          cases hi
        · intro s q hq
          cases hq
          exact ⟨rfl, rfl⟩
      · cases hfalse

/-- Witness for C10 at a concrete environment and configuration. -/
theorem bigquery_local_data_staging_witness :
    (local_data_helper
        { writeRemoteResult := Except.ok (), localDataResult := Except.ok none }
        { filter := none } { location := some "gs://tmp/" }).1.head? =
      some (BqEv.writeRemote "gs://tmp/" { filter := none } IfExists.Overwrite) :=
  ((bigquery_local_data_staging
      { writeRemoteResult := Except.ok (), localDataResult := Except.ok none }
      { filter := none } { location := some "gs://tmp/" }).2 "gs://tmp/" (by decide)).1

lemma runLoop_copy_sql (load : CsvStream → Except Err Unit) (sql : String) :
    ∀ (data : List (Except Err CsvStream)) (n s : String),
      Ev.copy n s ∈ (runLoop load sql data).trace → s = sql := by
  intro data
  induction data with
  | nil =>
    intro n s h
    simp [runLoop] at h
  | cons i rest ih =>
    intro n s h
    cases i with
    | error e => simp [runLoop] at h
    | ok cs =>
      cases hl : load cs with
      | error e =>
        simp [runLoop, hl] at h
        rcases h with ⟨_, h⟩
        exact h
      | ok u =>
        simp [runLoop, hl] at h
        rcases h with ⟨_, h⟩ | h
        · exact h
        · exact ih n s h

lemma runLoop_ok_iff (load : CsvStream → Except Err Unit) (sql : String) :
    ∀ data : List (Except Err CsvStream),
      (runLoop load sql data).result = Except.ok () ↔
        ∀ i ∈ data, ∃ cs, i = Except.ok cs ∧ load cs = Except.ok () := by
  intro data
  induction data with
  | nil => simp [runLoop]
  | cons i rest ih =>
    cases i with
    | error e => simp [runLoop]
    | ok cs =>
      cases hl : load cs with
      | error e =>
        simp [runLoop, hl]
      | ok u =>
        simp [runLoop, hl, ih]

lemma blockTrace_cons (sql n : String) (names : List String) :
    blockTrace sql (n :: names) = Ev.pull :: Ev.copy n sql :: blockTrace sql names := by
  simp [blockTrace]

lemma runLoop_shape (load : CsvStream → Except Err Unit) (sql : String) :
    ∀ data : List (Except Err CsvStream),
      ∃ names ending,
        (ending = [Ev.pull] ∨ ending = []) ∧
        (runLoop load sql data).trace = blockTrace sql names ++ ending ∧
        ∃ rest, okStreamNames data = names ++ rest := by
  intro data
  induction data with
  | nil =>
    exact ⟨[], [Ev.pull], Or.inl rfl, by simp [runLoop, blockTrace], [], rfl⟩
  | cons i rest ih =>
    cases i with
    | error e =>
      exact ⟨[], [Ev.pull], Or.inl rfl, by simp [runLoop, blockTrace],
        okStreamNames rest, by simp [okStreamNames]⟩
    | ok cs =>
      cases hl : load cs with
      | error e =>
        refine ⟨[cs.name], [], Or.inr rfl, ?_, okStreamNames rest, ?_⟩
        · simp [runLoop, hl, blockTrace]
        · simp [okStreamNames]
      | ok u =>
        rcases ih with ⟨names, ending, hend, htr, tail, htail⟩
        refine ⟨cs.name :: names, ending, hend, ?_, tail, ?_⟩
        · simp [runLoop, hl, blockTrace_cons, htr]
        · simp [okStreamNames, htail]

lemma okStreamNames_all_ok (load : CsvStream → Except Err Unit) :
    ∀ pfx : List (Except Err CsvStream),
      (∀ i ∈ pfx, ∃ cs, i = Except.ok cs ∧ load cs = Except.ok ()) →
      (okStreamNames pfx).length = pfx.length := by
  intro pfx
  induction pfx with
  | nil => intro _; rfl
  | cons i rest ih =>
    intro h
    rcases h i (by simp) with ⟨cs, hi, _⟩
    subst hi
    simp only [okStreamNames, List.length_cons]
    rw [ih (fun j hj => h j (by simp [hj]))]

lemma runLoop_stream_error (load : CsvStream → Except Err Unit) (sql : String)
    (e : Err) (rest : List (Except Err CsvStream)) :
    ∀ pfx : List (Except Err CsvStream),
      (∀ i ∈ pfx, ∃ cs, i = Except.ok cs ∧ load cs = Except.ok ()) →
      runLoop load sql (pfx ++ Except.error e :: rest) =
        { trace := blockTrace sql (okStreamNames pfx) ++ [Ev.pull],
          committed := okStreamNames pfx,
          result := Except.error e } := by
  intro pfx
  induction pfx with
  | nil =>
    intro _
    simp [runLoop, okStreamNames, blockTrace]
  | cons i tail ih =>
    intro h
    rcases h i (by simp) with ⟨cs, hi, hload⟩
    subst hi
    have := ih (fun j hj => h j (by simp [hj]))
    simp only [List.cons_append, runLoop, hload, List.append_eq, this, okStreamNames,
      blockTrace_cons]

lemma runLoop_load_error (load : CsvStream → Except Err Unit) (sql : String)
    (cs : CsvStream) (e : Err) (rest : List (Except Err CsvStream))
    (hcs : load cs = Except.error e) :
    ∀ pfx : List (Except Err CsvStream),
      (∀ i ∈ pfx, ∃ cs', i = Except.ok cs' ∧ load cs' = Except.ok ()) →
      runLoop load sql (pfx ++ Except.ok cs :: rest) =
        { trace := blockTrace sql (okStreamNames pfx) ++ [Ev.pull, Ev.copy cs.name sql],
          committed := okStreamNames pfx,
          result := Except.error e } := by
  intro pfx
  induction pfx with
  | nil =>
    intro _
    simp [runLoop, hcs, okStreamNames, blockTrace]
  | cons i tail ih =>
    intro h
    rcases h i (by simp) with ⟨cs', hi, hload⟩
    subst hi
    have := ih (fun j hj => h j (by simp [hj]))
    simp only [List.cons_append, runLoop, hload, List.append_eq, this, okStreamNames,
      blockTrace_cons]

lemma countP_isPull_blockTrace (sql : String) :
    ∀ names : List String, (blockTrace sql names).countP isPull = names.length := by
  intro names
  induction names with
  | nil => rfl
  | cons n tail ih =>
    rw [blockTrace_cons]
    simp [List.countP_cons, isPull, ih]

lemma noStreamEvents_prep (stmts : List SqlStmt) :
    noStreamEvents (Ev.connect :: stmts.map Ev.exec) = true := by
  induction stmts with
  | nil => rfl
  | cons s tail ih =>
    simp only [noStreamEvents, List.map_cons, List.all_cons] at ih ⊢
    exact ih

lemma write_local_data_ok (env : PgEnv) (table_name : String) (schema : Table)
    (data : List (Except Err CsvStream)) (if_exists : IfExists)
    (handles : List LoopRun)
    (h : (write_local_data_helper env table_name schema data if_exists).result =
      Except.ok handles) :
    ∃ pg sql, from_name_and_columns table_name schema.columns = Except.ok pg ∧
      copy_from_sql pg "BINARY" = Except.ok sql ∧
      env.connectResult = Except.ok () ∧
      handles = [runLoop env.load sql data] := by
  unfold write_local_data_helper at h
  cases hfn : from_name_and_columns table_name schema.columns with
  | error e => rw [hfn] at h; cases h
  | ok pg =>
    rw [hfn] at h
    cases hc : env.connectResult with
    | error e => rw [hc] at h; cases h
    | ok u =>
      rw [hc] at h
      simp only at h
      cases hprep : (prepare_table env.db pg if_exists).2 with
      | error e => rw [hprep] at h; cases h
      | ok db2 =>
        rw [hprep] at h
        cases hsql : copy_from_sql pg "BINARY" with
        | error e => rw [hsql] at h; cases h
        | ok sql =>
          rw [hsql] at h
          cases h
          exact ⟨pg, sql, rfl, hsql, by cases u; rfl, rfl⟩

lemma pgColumnOf_name (c : Column) (pc : PgColumn) (h : pgColumnOf c = Except.ok pc) :
    pc.name = c.name := by
  unfold pgColumnOf at h
  cases hd : pgDataTypeOf c.data_type with
  | error e => rw [hd] at h; cases h
  | ok ty => rw [hd] at h; cases h; rfl

lemma pgColumnsOf_names :
    ∀ (cols : List Column) (pcs : List PgColumn), pgColumnsOf cols = Except.ok pcs →
      pcs.map PgColumn.name = cols.map Column.name := by
  intro cols
  induction cols with
  | nil =>
    intro pcs h
    cases h
    rfl
  | cons c rest ih =>
    intro pcs h
    unfold pgColumnsOf at h
    cases hc : pgColumnOf c with
    | error e => rw [hc] at h; cases h
    | ok pc =>
      rw [hc] at h
      cases hr : pgColumnsOf rest with
      | error e => rw [hr] at h; cases h
      | ok pcs' =>
        rw [hr] at h
        cases h
        simp only [List.map_cons, ih pcs' hr, pgColumnOf_name c pc hc]

lemma copyColLines_ok_render :
    ∀ (cols : List PgColumn) (body : String), copyColLines cols = Except.ok body →
      body = renderCopyLines (cols.map PgColumn.name) := by
  intro cols
  induction cols with
  | nil =>
    intro body h
    cases h
    rfl
  | cons c rest ih =>
    intro body h
    unfold copyColLines at h
    cases hd : c.data_type with
    | array a => rw [hd] at h; cases h
    | scalar sc =>
      rw [hd] at h
      cases hr : copyColLines rest with
      | error e => rw [hr] at h; cases h
      | ok tail =>
        rw [hr] at h
        cases h
        cases rest with
        | nil =>
          cases hr
          show copyColLine c.name true ++ "" = renderCopyLines [c.name]
          rw [String.append_empty]
          rfl
        | cons c2 rest2 =>
          show copyColLine c.name false ++ tail =
            renderCopyLines (c.name :: c2.name :: rest2.map PgColumn.name)
          rw [ih tail hr]
          rfl

lemma pgDataTypeOf_array_ok (d : DataType) :
    ∃ a, pgDataTypeOf (DataType.array d) = Except.ok (PgDataType.array a) := by
  cases d with
  | int => exact ⟨"int", rfl⟩
  | text => exact ⟨"text", rfl⟩
  | array d2 => exact ⟨"nested", rfl⟩
  | other n => exact ⟨"nested", rfl⟩

lemma firstArray_transfer :
    ∀ (cols : List Column) (pcs : List PgColumn), pgColumnsOf cols = Except.ok pcs →
      (firstArrayPgColumn pcs).map PgColumn.name =
        (firstArrayColumn cols).map Column.name := by
  intro cols
  induction cols with
  | nil =>
    intro pcs h
    cases h
    rfl
  | cons c rest ih =>
    intro pcs h
    unfold pgColumnsOf at h
    cases hc : pgColumnOf c with
    | error e => rw [hc] at h; cases h
    | ok pc =>
      rw [hc] at h
      cases hr : pgColumnsOf rest with
      | error e => rw [hr] at h; cases h
      | ok pcs' =>
        rw [hr] at h
        cases h
        cases hdt : c.data_type with
        | array d =>
          rcases pgDataTypeOf_array_ok d with ⟨a, ha⟩
          unfold pgColumnOf at hc
          rw [hdt, ha] at hc
          cases hc
          simp [firstArrayPgColumn, firstArrayColumn, hdt]
        | int =>
          unfold pgColumnOf at hc
          rw [hdt] at hc
          cases hc
          simp only [firstArrayPgColumn, firstArrayColumn, hdt]
          exact ih pcs' hr
        | text =>
          unfold pgColumnOf at hc
          rw [hdt] at hc
          cases hc
          simp only [firstArrayPgColumn, firstArrayColumn, hdt]
          exact ih pcs' hr
        | other n =>
          unfold pgColumnOf at hc
          rw [hdt] at hc
          cases hc

lemma copyColLines_first_array :
    ∀ (cols : List PgColumn) (pc : PgColumn), firstArrayPgColumn cols = some pc →
      copyColLines cols =
        Except.error ("cannot yet import array column " ++ rustDebugString pc.name) := by
  intro cols
  induction cols with
  | nil =>
    intro pc h
    cases h
  | cons c rest ih =>
    intro pc h
    cases hdt : c.data_type with
    | array a =>
      rw [firstArrayPgColumn, hdt] at h
      cases h
      unfold copyColLines
      rw [hdt]
    | scalar sc =>
      rw [firstArrayPgColumn, hdt] at h
      unfold copyColLines
      rw [hdt, ih pc h]

/-! ## C1: the returned sequence of completion handles -/

/-- C1 (amended): on success `write_local_data_helper` returns a lazy
sequence containing exactly one completion handle — covering the whole
sequential load, not one handle per input RowStream — and that single
handle resolves successfully exactly when every input stream is
yielded without error and its load succeeds. -/
theorem write_local_data_single_handle (env : PgEnv) (table_name : String)
    (schema : Table) (data : List (Except Err CsvStream)) (if_exists : IfExists)
    (handles : List LoopRun)
    (h : (write_local_data_helper env table_name schema data if_exists).result =
      Except.ok handles) :
    handles.length = 1 ∧
    ∀ hd ∈ handles,
      (hd.result = Except.ok () ↔
        ∀ i ∈ data, ∃ cs, i = Except.ok cs ∧ env.load cs = Except.ok ()) := by
  rcases write_local_data_ok env table_name schema data if_exists handles h with
    ⟨pg, sql, _, _, _, hh⟩
  subst hh
  refine ⟨rfl, ?_⟩
  intro hd hmem
  simp only [List.mem_singleton] at hmem
  subst hmem
  exact runLoop_ok_iff env.load sql data

/-- Counterexample to C1 as stated: with two input RowStreams the
operation returns one completion handle, not two. -/
theorem write_local_data_single_handle_cx :
    (write_local_data_helper envOk "t" schemaInt
        [Except.ok stream1, Except.ok stream2] IfExists.Overwrite).result.map
      List.length = Except.ok 1 ∧
    ([Except.ok stream1, Except.ok stream2] :
      List (Except Err CsvStream)).length = 2 ∧
    (1 : Nat) ≠ 2 := by
  refine ⟨by decide, rfl, by decide⟩

/-- Witness for C1's amended theorem at a concrete invocation. -/
theorem write_local_data_single_handle_witness :
    ([{ trace := [Ev.pull], committed := [], result := Except.ok () }] :
      List LoopRun).length = 1 :=
  (write_local_data_single_handle envOk "t" schemaInt [] IfExists.Overwrite
    [{ trace := [Ev.pull], committed := [], result := Except.ok () }] (by decide)).1

/-! ## C2: array-column rejection -/

/-- C2 (amended): when the schema contains an array-typed column (and
translation, connection and table preparation themselves succeed), the
operation fails with a schema error naming the first offending column,
before any RowStream is consumed and before any row data is written —
but after the connection and the table drop/create have been made. -/
theorem write_local_data_array_rejection (env : PgEnv) (table_name : String)
    (schema : Table) (data : List (Except Err CsvStream)) (if_exists : IfExists)
    (pg : PgCreateTable) (c : Column) (db2 : Db)
    (hfn : from_name_and_columns table_name schema.columns = Except.ok pg)
    (hc : env.connectResult = Except.ok ())
    (hp : (prepare_table env.db pg if_exists).2 = Except.ok db2)
    (ha : firstArrayColumn schema.columns = some c) :
    (write_local_data_helper env table_name schema data if_exists).result =
      Except.error ("cannot yet import array column " ++ rustDebugString c.name) ∧
    noStreamEvents (write_local_data_helper env table_name schema data
      if_exists).trace = true := by
  have hcols : pgColumnsOf schema.columns = Except.ok pg.columns := by
    unfold from_name_and_columns at hfn
    cases hpc : pgColumnsOf schema.columns with
    | error e => rw [hpc] at hfn; cases hfn
    | ok pcs => rw [hpc] at hfn; cases hfn; rfl
  have htr := firstArray_transfer schema.columns pg.columns hcols
  rw [ha] at htr
  cases hfa : firstArrayPgColumn pg.columns with
  | none => rw [hfa] at htr; cases htr
  | some pc =>
    rw [hfa] at htr
    simp only [Option.map_some'] at htr
    have hname : pc.name = c.name := Option.some.inj htr
    have hsql : copy_from_sql pg "BINARY" =
        Except.error ("cannot yet import array column " ++ rustDebugString c.name) := by
      unfold copy_from_sql
      rw [copyColLines_first_array pg.columns pc hfa, hname]
    unfold write_local_data_helper
    rw [hfn, hc]
    simp only [hp, hsql]
    exact ⟨by trivial, noStreamEvents_prep _⟩

/-- Counterexample to C2 as stated: for a schema with an array column
the operation does fail with the schema error naming the column, but a
connection has been opened and the destination table has been dropped
and created before the rejection — the rejection is not "before any
network/backend call". -/
theorem write_local_data_array_rejection_cx :
    (write_local_data_helper envOk "t" schemaArr [] IfExists.Overwrite).result =
      Except.error ("cannot yet import array column " ++ rustDebugString "a") ∧
    Ev.connect ∈ (write_local_data_helper envOk "t" schemaArr []
      IfExists.Overwrite).trace ∧
    Ev.exec (SqlStmt.dropTableIfExists "t") ∈
      (write_local_data_helper envOk "t" schemaArr [] IfExists.Overwrite).trace ∧
    Ev.exec (SqlStmt.createTable
      { name := "t",
        columns := [{ name := "a", data_type := PgDataType.array "int",
                      is_nullable := false }],
        if_not_exists := false }) ∈
      (write_local_data_helper envOk "t" schemaArr [] IfExists.Overwrite).trace := by
  refine ⟨by decide, by decide, by decide, by decide⟩

/-- Witness for C2's amended theorem at a concrete schema. -/
theorem write_local_data_array_rejection_witness :
    (write_local_data_helper envOk "t" schemaArr [] IfExists.Append).result =
      Except.error ("cannot yet import array column " ++ rustDebugString "a") ∧
    noStreamEvents (write_local_data_helper envOk "t" schemaArr []
      IfExists.Append).trace = true :=
  write_local_data_array_rejection envOk "t" schemaArr [] IfExists.Append
    { name := "t",
      columns := [{ name := "a", data_type := PgDataType.array "int",
                    is_nullable := false }],
      if_not_exists := false }
    { name := "a", data_type := DataType.array DataType.int, is_nullable := false }
    ["t"] (by decide) (by decide) (by decide) (by decide)

/-! ## C3: schema translation and table preparation abort the transfer -/

/-- C3: a schema-translation failure, or a table-preparation failure
(with the connection made), is returned as the whole operation's error
before any RowStream is consumed and before any row data is sent. -/
theorem write_local_data_prepare_abort (env : PgEnv) (table_name : String)
    (schema : Table) (data : List (Except Err CsvStream)) (if_exists : IfExists)
    (e : Err) :
    (from_name_and_columns table_name schema.columns = Except.error e →
       write_local_data_helper env table_name schema data if_exists =
         { trace := [], result := Except.error e }) ∧
    (∀ pg, from_name_and_columns table_name schema.columns = Except.ok pg →
       env.connectResult = Except.ok () →
       (prepare_table env.db pg if_exists).2 = Except.error e →
       (write_local_data_helper env table_name schema data if_exists).result =
         Except.error e ∧
       noStreamEvents (write_local_data_helper env table_name schema data
         if_exists).trace = true) := by
  constructor
  · intro h
    unfold write_local_data_helper
    rw [h]
  · intro pg hfn hc hp
    unfold write_local_data_helper
    rw [hfn, hc]
    simp only [hp]
    exact ⟨by trivial, noStreamEvents_prep _⟩

/-- Witness for C3: a pre-existing table under the `Error` policy
aborts the operation before any stream is consumed. -/
theorem write_local_data_prepare_abort_witness :
    (write_local_data_helper envTblExists "t" schemaInt [] IfExists.Error).result =
      Except.error ("relation " ++ rustDebugString "t" ++ " already exists") ∧
    noStreamEvents (write_local_data_helper envTblExists "t" schemaInt []
      IfExists.Error).trace = true :=
  (write_local_data_prepare_abort envTblExists "t" schemaInt [] IfExists.Error
      ("relation " ++ rustDebugString "t" ++ " already exists")).2
    { name := "t",
      columns := [{ name := "a", data_type := PgDataType.scalar "int",
                    is_nullable := false }],
      if_not_exists := false }
    (by decide) (by decide) (by decide)

/-! ## C5: streams are loaded one at a time, in source order -/

/-- C5: every completion handle's trace is a strict alternation of one
`pull` followed by one `copy` per loaded stream — so the load of stream
k completes before stream k+1 is pulled, never two loads in flight —
and the loaded stream names are an initial segment of the names the
source produces, in source order. -/
theorem write_local_data_sequential (env : PgEnv) (table_name : String)
    (schema : Table) (data : List (Except Err CsvStream)) (if_exists : IfExists)
    (handles : List LoopRun)
    (h : (write_local_data_helper env table_name schema data if_exists).result =
      Except.ok handles) :
    ∀ hd ∈ handles, ∃ sql names ending,
      (ending = [Ev.pull] ∨ ending = []) ∧
      hd.trace = blockTrace sql names ++ ending ∧
      ∃ rest, okStreamNames data = names ++ rest := by
  rcases write_local_data_ok env table_name schema data if_exists handles h with
    ⟨pg, sql, _, _, _, hh⟩
  subst hh
  intro hd hmem
  simp only [List.mem_singleton] at hmem
  subst hmem
  rcases runLoop_shape env.load sql data with ⟨names, ending, hend, htr, hrest⟩
  exact ⟨sql, names, ending, hend, htr, hrest⟩

/-- Witness for C5 at a concrete one-stream invocation. -/
theorem write_local_data_sequential_witness :
    ∃ sql names ending,
      (ending = [Ev.pull] ∨ ending = []) ∧
      ({ trace := [Ev.pull, Ev.copy "s1" copySqlT, Ev.pull], committed := ["s1"],
         result := Except.ok () } : LoopRun).trace = blockTrace sql names ++ ending ∧
      ∃ rest, okStreamNames [Except.ok stream1] = names ++ rest :=
  write_local_data_sequential envOk "t" schemaInt [Except.ok stream1]
    IfExists.Overwrite
    [{ trace := [Ev.pull, Ev.copy "s1" copySqlT, Ev.pull], committed := ["s1"],
       result := Except.ok () }] (by decide)
    { trace := [Ev.pull, Ev.copy "s1" copySqlT, Ev.pull], committed := ["s1"],
      result := Except.ok () } (by decide)

/-! ## C8: the COPY statement is built once, with the columns in order -/

/-- C8: the `COPY` statement handed to every stream's load is the one
string generated once by `copy_from_sql`, and that string's column list
is exactly the table's column names in schema order (which the schema
translation preserved from the neutral schema). -/
theorem copy_from_sql_once_ordered (env : PgEnv) (table_name : String)
    (schema : Table) (data : List (Except Err CsvStream)) (if_exists : IfExists)
    (pg : PgCreateTable) (handles : List LoopRun) (sql : String)
    (hfn : from_name_and_columns table_name schema.columns = Except.ok pg)
    (h : (write_local_data_helper env table_name schema data if_exists).result =
      Except.ok handles)
    (hsql : copy_from_sql pg "BINARY" = Except.ok sql) :
    (∀ hd ∈ handles, ∀ n s, Ev.copy n s ∈ hd.trace → s = sql) ∧
    sql = renderCopySql pg.name (pg.columns.map PgColumn.name) "BINARY" ∧
    pg.columns.map PgColumn.name = schema.columns.map Column.name := by
  rcases write_local_data_ok env table_name schema data if_exists handles h with
    ⟨pg', sql', hfn', hsql', _, hh⟩
  rw [hfn] at hfn'
  cases hfn'
  rw [hsql] at hsql'
  cases hsql'
  subst hh
  refine ⟨?_, ?_, ?_⟩
  · intro hd hmem n s hcopy
    simp only [List.mem_singleton] at hmem
    subst hmem
    exact runLoop_copy_sql env.load sql data n s hcopy
  · unfold copy_from_sql at hsql
    cases hcl : copyColLines pg.columns with
    | error e => rw [hcl] at hsql; cases hsql
    | ok body =>
      rw [hcl] at hsql
      cases hsql
      rw [copyColLines_ok_render pg.columns body hcl]
      rfl
  · unfold from_name_and_columns at hfn
    cases hpc : pgColumnsOf schema.columns with
    | error e => rw [hpc] at hfn; cases hfn
    | ok pcs =>
      rw [hpc] at hfn
      cases hfn
      exact pgColumnsOf_names schema.columns pcs hpc

/-- Witness for C8 at a concrete schema: the generated statement lists
the single column by name. -/
theorem copy_from_sql_once_ordered_witness :
    copySqlT = renderCopySql "t" ["a"] "BINARY" ∧
    (["a"] : List String) = schemaInt.columns.map Column.name :=
  ⟨(copy_from_sql_once_ordered envOk "t" schemaInt [] IfExists.Overwrite
      { name := "t",
        columns := [{ name := "a", data_type := PgDataType.scalar "int",
                      is_nullable := false }],
        if_not_exists := false }
      [{ trace := [Ev.pull], committed := [], result := Except.ok () }] copySqlT
      (by decide) (by decide) (by decide)).2.1,
   (copy_from_sql_once_ordered envOk "t" schemaInt [] IfExists.Overwrite
      { name := "t",
        columns := [{ name := "a", data_type := PgDataType.scalar "int",
                      is_nullable := false }],
        if_not_exists := false }
      [{ trace := [Ev.pull], committed := [], result := Except.ok () }] copySqlT
      (by decide) (by decide) (by decide)).2.2⟩

/-! ## C9: mid-stream errors abort without rollback -/

/-- C9: when the stream of streams yields an error, or one stream's
load fails, the completion handle resolves with that error; exactly one
further pull is made past the successfully loaded streams (nothing
after the failure point is consumed or started), and the streams
already committed stay committed — no rollback event exists. -/
theorem write_local_data_midstream_abort (env : PgEnv) (table_name : String)
    (schema : Table) (data : List (Except Err CsvStream)) (if_exists : IfExists)
    (handles : List LoopRun)
    (h : (write_local_data_helper env table_name schema data if_exists).result =
      Except.ok handles) :
    ∀ hd ∈ handles,
      (∀ pfx e rest, data = pfx ++ Except.error e :: rest →
        (∀ i ∈ pfx, ∃ cs, i = Except.ok cs ∧ env.load cs = Except.ok ()) →
        hd.result = Except.error e ∧ hd.committed = okStreamNames pfx ∧
          hd.trace.countP isPull = pfx.length + 1) ∧
      (∀ pfx cs e rest, data = pfx ++ Except.ok cs :: rest →
        (∀ i ∈ pfx, ∃ cs', i = Except.ok cs' ∧ env.load cs' = Except.ok ()) →
        env.load cs = Except.error e →
        hd.result = Except.error e ∧ hd.committed = okStreamNames pfx ∧
          hd.trace.countP isPull = pfx.length + 1) := by
  rcases write_local_data_ok env table_name schema data if_exists handles h with
    ⟨pg, sql, _, _, _, hh⟩
  subst hh
  intro hd hmem
  simp only [List.mem_singleton] at hmem
  subst hmem
  constructor
  · intro pfx e rest hdata hpfx
    subst hdata
    rw [runLoop_stream_error env.load sql e rest pfx hpfx]
    refine ⟨rfl, rfl, ?_⟩
    simp [List.countP_append, countP_isPull_blockTrace, isPull,
      okStreamNames_all_ok env.load pfx hpfx]
  · intro pfx cs e rest hdata hpfx hcs
    subst hdata
    rw [runLoop_load_error env.load sql cs e rest hcs pfx hpfx]
    refine ⟨rfl, rfl, ?_⟩
    simp [List.countP_append, countP_isPull_blockTrace, isPull,
      okStreamNames_all_ok env.load pfx hpfx, List.countP_cons]

/-- Witness for C9: one committed stream, then a stream-of-streams
error; the handle reports the error, the committed stream stays, and
exactly one further pull was made. -/
theorem write_local_data_midstream_abort_witness :
    ({ trace := [Ev.pull, Ev.copy "s1" copySqlT, Ev.pull], committed := ["s1"],
       result := Except.error "boom" } : LoopRun).result = Except.error "boom" ∧
    ({ trace := [Ev.pull, Ev.copy "s1" copySqlT, Ev.pull], committed := ["s1"],
       result := Except.error "boom" } : LoopRun).committed =
      okStreamNames [Except.ok stream1] ∧
    ({ trace := [Ev.pull, Ev.copy "s1" copySqlT, Ev.pull], committed := ["s1"],
       result := Except.error "boom" } : LoopRun).trace.countP isPull =
      ([Except.ok stream1] : List (Except Err CsvStream)).length + 1 :=
  (write_local_data_midstream_abort envOk "t" schemaInt
      [Except.ok stream1, Except.error "boom"] IfExists.Overwrite
      [{ trace := [Ev.pull, Ev.copy "s1" copySqlT, Ev.pull], committed := ["s1"],
         result := Except.error "boom" }] (by decide)
      { trace := [Ev.pull, Ev.copy "s1" copySqlT, Ev.pull], committed := ["s1"],
        result := Except.error "boom" } (by decide)).1
    [Except.ok stream1] "boom" [] rfl
    (by
      intro i hi
      simp only [List.mem_singleton] at hi
      subst hi
      exact ⟨stream1, rfl, rfl⟩)

end DbCrossbar
